import Mathlib

/-!
Verification of the report synthesis engine of the transport-ledger
application.  The repository ships two observed variants of the PDF report
generator `exportToPDF` (src/src/utils/pdfExport.ts, first variant at lines
13-143 and second variant at lines 156-331) plus the list view
`TransportEntries` (src/src/components/TransportEntries.tsx).  Monetary
amounts are JavaScript numbers used with exact +, -, / on in-range values;
they are modelled as rationals.  External string producers (date-fns
`format`, `Number.toLocaleString`) are modelled as an abstract formatter
record `Fmt` passed to the row builders; no computed number depends on it.
-/

/-- `TransportEntry` from src/types/transport (as used by the two source
files): `advanceAmount` and `balanceDate` are optional, `balanceStatus` is
an open string. -/
structure TransportEntry where
  id : String
  date : String
  vehicleNumber : String
  weight : String
  transportName : String
  place : String
  rentAmount : Rat
  advanceAmount : Option Rat
  balanceStatus : String
  balanceDate : Option String
deriving Repr, DecidableEq

/-- JavaScript `entry.advanceAmount || 0`: absent (undefined) and the falsy
value 0 both give 0, any other present value gives itself. -/
def advOr0 (e : TransportEntry) : Rat :=
  match e.advanceAmount with
  | none => 0
  | some v => v

/-- JavaScript truthiness of the optional `advanceAmount`
(`entry.advanceAmount ? ... : "-"`): present and nonzero. -/
def advTruthy (e : TransportEntry) : Bool :=
  match e.advanceAmount with
  | none => false
  | some v => v != 0

/-- JavaScript truthiness of the optional `balanceDate`
(`entry.balanceDate ? ... : "-"`): present and not the empty string. -/
def dateTruthy (o : Option String) : Bool :=
  match o with
  | none => false
  | some s => s != ""

/-- Abstract formatter for the external string libraries: `dateFmt` models
date-fns `format(new Date(s), "dd/MM/yyyy")`, `num` models
`Number.prototype.toLocaleString`. -/
structure Fmt where
  dateFmt : String → String
  num : Rat → String

/-- A concrete formatter instance for evaluating the builders on concrete
inputs. -/
def idFmt : Fmt :=
  { dateFmt := fun s => s, num := fun _ => "" }

/-- pdfExport.ts lines 17 and 163: `entries.reduce((sum, e) => sum + e.rentAmount, 0)`. -/
def totalAmount (entries : List TransportEntry) : Rat :=
  entries.foldl (fun sum e => sum + e.rentAmount) 0

/-- pdfExport.ts lines 18-20 and 167-169: filter on `balanceStatus === "PAID"`,
then sum `rentAmount`. -/
def paidAmount (entries : List TransportEntry) : Rat :=
  (entries.filter (fun e => e.balanceStatus = "PAID")).foldl
    (fun sum e => sum + e.rentAmount) 0

/-- pdfExport.ts lines 21-23 and 164-166: filter on `balanceStatus !== "PAID"`,
then sum `rentAmount - (advanceAmount || 0)`. -/
def unpaidAmount (entries : List TransportEntry) : Rat :=
  (entries.filter (fun e => e.balanceStatus ≠ "PAID")).foldl
    (fun sum e => sum + (e.rentAmount - advOr0 e)) 0

/-- pdfExport.ts lines 24 and 170: `entries.length ? totalAmount / entries.length : 0`. -/
def averageAmount (entries : List TransportEntry) : Rat :=
  if entries.length = 0 then 0 else totalAmount entries / (entries.length : Rat)

/-- pdfExport.ts lines 25 and 171: `new Set(entries.map(e => e.vehicleNumber)).size`. -/
def uniqueVehicles (entries : List TransportEntry) : Nat :=
  ((entries.map (fun e => e.vehicleNumber)).dedup).length

/-- pdfExport.ts lines 26 and 172: `new Set(entries.map(e => e.weight).filter(Boolean)).size`
(falsy = empty string removed before counting). -/
def uniqueWeights (entries : List TransportEntry) : Nat :=
  (((entries.map (fun e => e.weight)).filter (fun w => w ≠ "")).dedup).length

/-- TransportEntries.tsx lines 70-75: reduce that adds
`rentAmount - (advanceAmount || 0)` for entries whose status is not PAID
and passes the accumulator through otherwise. -/
def remainingBalance (entries : List TransportEntry) : Rat :=
  entries.foldl
    (fun total e =>
      if e.balanceStatus ≠ "PAID" then total + (e.rentAmount - advOr0 e)
      else total) 0

-- ===== Generic fold lemmas used to relate the reduces to sums =====

lemma foldl_add_map (f : TransportEntry → Rat) :
    ∀ (l : List TransportEntry) (a : Rat),
      l.foldl (fun sum e => sum + f e) a = a + (l.map f).sum := by
  intro l
  induction l with
  | nil => intro a; simp
  | cons x xs ih =>
      intro a
      simp only [List.foldl_cons, List.map_cons, List.sum_cons]
      rw [ih]
      ring

lemma foldl_if_add_map (p : TransportEntry → Prop) [DecidablePred p]
    (f : TransportEntry → Rat) :
    ∀ (l : List TransportEntry) (a : Rat),
      l.foldl (fun total e => if p e then total + f e else total) a
        = a + ((l.filter (fun e => p e)).map f).sum := by
  intro l
  induction l with
  | nil => intro a; simp
  | cons x xs ih =>
      intro a
      by_cases hx : p x
      · simp only [List.foldl_cons, if_pos hx, List.filter_cons,
          decide_eq_true_eq, hx, if_true, List.map_cons, List.sum_cons]
        rw [ih]
        ring
      · simp only [List.foldl_cons, if_neg hx, List.filter_cons,
          decide_eq_true_eq, hx, if_false, List.map_cons, List.sum_cons]
        rw [ih]

lemma totalAmount_eq_sum (entries : List TransportEntry) :
    totalAmount entries = (entries.map (fun e => e.rentAmount)).sum := by
  unfold totalAmount
  rw [foldl_add_map]
  ring

lemma paidAmount_eq_sum (entries : List TransportEntry) :
    paidAmount entries
      = ((entries.filter (fun e => e.balanceStatus = "PAID")).map
          (fun e => e.rentAmount)).sum := by
  unfold paidAmount
  rw [foldl_add_map]
  ring

lemma unpaidAmount_eq_sum (entries : List TransportEntry) :
    unpaidAmount entries
      = ((entries.filter (fun e => e.balanceStatus ≠ "PAID")).map
          (fun e => e.rentAmount - advOr0 e)).sum := by
  unfold unpaidAmount
  rw [foldl_add_map]
  ring

/-- A sample entry whose advance exceeds its rent: balance is negative. -/
def negEntry : TransportEntry :=
  { id := "n1", date := "2024-01-01", vehicleNumber := "MH1", weight := "5T",
    transportName := "t", place := "p", rentAmount := 100,
    advanceAmount := some 250, balanceStatus := "UNPAID", balanceDate := none }

/-- C1: the summary's unpaidAmount is the sum of
`rentAmount - (advanceAmount or 0)` over exactly the entries whose
balanceStatus is not PAID, and negative balances are carried through with
their sign (no clamping: the total itself can go negative). -/
theorem C1_unpaid_is_sum_of_balances :
    (∀ entries : List TransportEntry,
      unpaidAmount entries
        = ((entries.filter (fun e => e.balanceStatus ≠ "PAID")).map
            (fun e => e.rentAmount - advOr0 e)).sum)
    ∧ unpaidAmount [negEntry] < 0 := by
  constructor
  · exact unpaidAmount_eq_sum
  · rw [unpaidAmount_eq_sum]
    simp +decide [negEntry, advOr0]

/-- C2: totalAmount is the sum of rentAmount over all entries, and
paidAmount is the sum of rentAmount over exactly the PAID entries. -/
theorem C2_total_and_paid_sums :
    ∀ entries : List TransportEntry,
      totalAmount entries = (entries.map (fun e => e.rentAmount)).sum
      ∧ paidAmount entries
          = ((entries.filter (fun e => e.balanceStatus = "PAID")).map
              (fun e => e.rentAmount)).sum := by
  intro entries
  exact ⟨totalAmount_eq_sum entries, paidAmount_eq_sum entries⟩

/-- C9: the list view's `remainingBalance` (a single reduce with an inline
status test) computes the same number as the report engine's
`unpaidAmount` (filter then reduce). -/
theorem C9_remaining_balance_eq_unpaid :
    ∀ entries : List TransportEntry,
      remainingBalance entries = unpaidAmount entries := by
  intro entries
  unfold remainingBalance
  rw [foldl_if_add_map (fun e => e.balanceStatus ≠ "PAID")
        (fun e => e.rentAmount - advOr0 e), unpaidAmount_eq_sum]
  ring

-- ===== C7: paid vs total =====

lemma total_split (entries : List TransportEntry) :
    totalAmount entries
      = paidAmount entries
        + ((entries.filter (fun e => e.balanceStatus ≠ "PAID")).map
            (fun e => e.rentAmount)).sum := by
  rw [totalAmount_eq_sum, paidAmount_eq_sum]
  induction entries with
  | nil => simp
  | cons x xs ih =>
      by_cases hx : x.balanceStatus = "PAID"
      · simp only [List.map_cons, List.sum_cons, List.filter_cons, hx,
          decide_eq_true_eq, decide_not]
        simp only [decide_eq_true_eq] at ih ⊢
        simp [hx, ih]
        ring
      · simp only [List.map_cons, List.sum_cons, List.filter_cons, hx,
          decide_eq_true_eq, decide_not]
        simp only [decide_eq_true_eq] at ih ⊢
        simp [hx, ih]
        ring

lemma sum_rat_eq_zero_iff :
    ∀ l : List Rat, (∀ x ∈ l, 0 ≤ x) → (l.sum = 0 ↔ ∀ x ∈ l, x = 0) := by
  intro l
  induction l with
  | nil => intro _; simp
  | cons x xs ih =>
      intro h
      have hx : 0 ≤ x := h x (List.mem_cons_self x xs)
      have hxs : ∀ y ∈ xs, 0 ≤ y := fun y hy => h y (List.mem_cons_of_mem x hy)
      have hsum : 0 ≤ xs.sum := List.sum_nonneg hxs
      constructor
      · intro h0
        simp only [List.sum_cons] at h0
        have hx0 : x = 0 := by linarith
        have hs0 : xs.sum = 0 := by linarith
        intro y hy
        rcases List.mem_cons.mp hy with h1 | h2
        · rw [h1]; exact hx0
        · exact ((ih hxs).mp hs0) y h2
      · intro hall
        simp only [List.sum_cons]
        rw [hall x (List.mem_cons_self x xs),
          (ih hxs).mpr (fun y hy => hall y (List.mem_cons_of_mem x hy))]
        ring

/-- An entry with zero rent and status UNPAID: it makes `paidAmount` equal
`totalAmount` without every entry being PAID. -/
def zeroEntry : TransportEntry :=
  { id := "z1", date := "2024-01-02", vehicleNumber := "MH2", weight := "",
    transportName := "t", place := "p", rentAmount := 0,
    advanceAmount := none, balanceStatus := "UNPAID", balanceDate := none }

/-- C7 counterexample: a collection with one non-negative-rent entry whose
status is UNPAID, on which paidAmount equals totalAmount even though not
every entry is PAID — the claim's "equal iff every entry is PAID" fails. -/
theorem C7_counterexample :
    (∀ e ∈ [zeroEntry], (0:Rat) ≤ e.rentAmount)
    ∧ paidAmount [zeroEntry] = totalAmount [zeroEntry]
    ∧ ¬ (∀ e ∈ [zeroEntry], e.balanceStatus = "PAID") := by
  refine ⟨?_, ?_, ?_⟩
  · intro e he
    simp only [List.mem_singleton] at he
    rw [he]
    norm_num [zeroEntry]
  · rw [paidAmount_eq_sum, totalAmount_eq_sum]
    simp +decide [zeroEntry]
  · intro hall
    have := hall zeroEntry (List.mem_singleton.mpr rfl)
    simp [zeroEntry] at this

/-- C7 amended: with non-negative rents, paidAmount is at most totalAmount,
and they are equal iff every entry whose status is not PAID has zero
rentAmount (in particular they are equal whenever every entry is PAID). -/
theorem C7_paid_le_total (entries : List TransportEntry)
    (h : ∀ e ∈ entries, (0:Rat) ≤ e.rentAmount) :
    paidAmount entries ≤ totalAmount entries
    ∧ (paidAmount entries = totalAmount entries
        ↔ ∀ e ∈ entries, e.balanceStatus ≠ "PAID" → e.rentAmount = 0) := by
  have hsplit := total_split entries
  have hmem : ∀ x ∈ (entries.filter
      (fun e => e.balanceStatus ≠ "PAID")).map (fun e => e.rentAmount),
      (0:Rat) ≤ x := by
    intro x hx
    rcases List.mem_map.mp hx with ⟨e, he, hex⟩
    rw [← hex]
    exact h e (List.mem_of_mem_filter he)
  have hnn := List.sum_nonneg hmem
  constructor
  · linarith
  · constructor
    · intro heq
      have hz : ((entries.filter (fun e => e.balanceStatus ≠ "PAID")).map
          (fun e => e.rentAmount)).sum = 0 := by linarith
      intro e he hst
      have hmem2 : e.rentAmount ∈ (entries.filter
          (fun e => e.balanceStatus ≠ "PAID")).map (fun e => e.rentAmount) := by
        exact List.mem_map.mpr ⟨e, List.mem_filter.mpr ⟨he, by simpa using hst⟩, rfl⟩
      exact ((sum_rat_eq_zero_iff _ hmem).mp hz) _ hmem2
    · intro hall
      have hz : ((entries.filter (fun e => e.balanceStatus ≠ "PAID")).map
          (fun e => e.rentAmount)).sum = 0 := by
        apply (sum_rat_eq_zero_iff _ hmem).mpr
        intro x hx
        rcases List.mem_map.mp hx with ⟨e, he, hex⟩
        rw [← hex]
        exact hall e (List.mem_of_mem_filter he)
          (by simpa using (List.mem_filter.mp he).2)
      linarith

/-- C7 witness: the amended theorem applied at the one-entry collection
`[negEntry]`, whose rent 100 is non-negative. -/
theorem C7_paid_le_total_witness :
    paidAmount [negEntry] ≤ totalAmount [negEntry]
    ∧ (paidAmount [negEntry] = totalAmount [negEntry]
        ↔ ∀ e ∈ [negEntry], e.balanceStatus ≠ "PAID" → e.rentAmount = 0) :=
  C7_paid_le_total [negEntry] (by
    intro e he
    simp only [List.mem_singleton] at he
    rw [he]
    norm_num [negEntry])

-- ===== Status distribution (pdfExport.ts lines 66-69 / 239-242) =====

/-- One step of the JS reduce `acc[status] = (acc[status] || 0) + 1` on a
plain object whose `Object.entries` order is key-insertion order: bump the
count of an existing key in place, otherwise append the key with count 1. -/
def bumpStatus : List (String × Nat) → String → List (String × Nat)
  | [], s => [(s, 1)]
  | (k, c) :: rest, s =>
      if k = s then (k, c + 1) :: rest else (k, c) :: bumpStatus rest s

/-- pdfExport.ts lines 66-69 and 239-242: group the entries by
`balanceStatus`, counting, in first-seen order. -/
def statusDistribution (entries : List TransportEntry) : List (String × Nat) :=
  entries.foldl (fun acc e => bumpStatus acc e.balanceStatus) []

/-- JavaScript `Math.round`: nearest integer, ties toward positive
infinity. -/
def jsRound (x : Rat) : Int :=
  Int.floor (x + 1/2)

/-- The numeric value rendered by the first variant (line 82):
`((count / entries.length) * 100).toFixed(1)` — the exact percentage
rounded to one decimal place. -/
def pctV1 (count total : Nat) : Rat :=
  (jsRound ((count : Rat) / (total : Rat) * 100 * 10) : Rat) / 10

/-- The numeric value rendered by the second variant (line 255):
`Math.round((count / entries.length) * 100)`. -/
def pctV2 (count total : Nat) : Int :=
  jsRound ((count : Rat) / (total : Rat) * 100)

/-- Distribution rows of the first variant: status, count, one-decimal
percentage (lines 79-83). -/
def distRowsV1 (entries : List TransportEntry) : List (String × Nat × Rat) :=
  (statusDistribution entries).map
    (fun p => (p.1, p.2, pctV1 p.2 entries.length))

/-- Distribution rows of the second variant: status, count, whole-number
percentage (lines 252-256). -/
def distRowsV2 (entries : List TransportEntry) : List (String × Nat × Int) :=
  (statusDistribution entries).map
    (fun p => (p.1, p.2, pctV2 p.2 entries.length))

/-- Three concrete entries: two PAID, one UNPAID. -/
def es3 : List TransportEntry :=
  [ { id := "a", date := "2024-02-01", vehicleNumber := "V1", weight := "1T",
      transportName := "t", place := "p", rentAmount := 1000,
      advanceAmount := some 200, balanceStatus := "PAID",
      balanceDate := some "2024-02-02" },
    { id := "b", date := "2024-02-03", vehicleNumber := "V2", weight := "2T",
      transportName := "t", place := "p", rentAmount := 500,
      advanceAmount := none, balanceStatus := "PAID",
      balanceDate := some "2024-02-04" },
    { id := "c", date := "2024-02-05", vehicleNumber := "V3", weight := "3T",
      transportName := "t", place := "p", rentAmount := 800,
      advanceAmount := some 300, balanceStatus := "UNPAID",
      balanceDate := none } ]

lemma floor_4003_div_6 : Int.floor ((2:Rat) / 3 * 100 * 10 + 1/2) = 667 := by
  rw [Int.floor_eq_iff]
  norm_num

/-- C3 counterexample: on a three-entry collection (two PAID, one UNPAID)
the first variant renders the PAID percentage as 66.7 — a fractional
value, not the nearest whole percentage point 67 rendered by the second
variant, so the precision is not consistent across report generations. -/
theorem C3_counterexample :
    statusDistribution es3 = [("PAID", 2), ("UNPAID", 1)]
    ∧ pctV1 2 3 = (667 : Rat) / 10
    ∧ ((667 : Rat) / 10).den ≠ 1
    ∧ pctV1 2 3 ≠ ((pctV2 2 3 : Int) : Rat) := by
  have h1 : pctV1 2 3 = (667 : Rat) / 10 := by
    unfold pctV1 jsRound
    norm_num [floor_4003_div_6]
  have h2 : pctV2 2 3 = 67 := by
    unfold pctV2 jsRound
    rw [Int.floor_eq_iff]
    norm_num
  refine ⟨by decide, h1, by norm_num, ?_⟩
  rw [h1, h2]
  norm_num

lemma jsRound_close (x : Rat) : |(jsRound x : Rat) - x| ≤ 1/2 := by
  unfold jsRound
  have h1 : ((Int.floor (x + 1/2) : Int) : Rat) ≤ x + 1/2 := Int.floor_le _
  have h2 : x + 1/2 < (Int.floor (x + 1/2) : Int) + 1 := Int.lt_floor_add_one _
  rw [abs_le]
  constructor <;> push_cast at h2 ⊢ <;> linarith

/-- C3 amended: the two variants round at different, individually
consistent precisions — every second-variant row carries the exact
percentage rounded to the nearest whole point (ties up, within 1/2),
while every first-variant row carries it rounded to the nearest tenth
(within 1/20), so fractional percentages do appear in the first variant. -/
theorem C3_percentage_rounding (entries : List TransportEntry)
    (h : entries ≠ []) :
    (∀ r ∈ distRowsV2 entries,
      |((r.2.2 : Int) : Rat)
          - (r.2.1 : Rat) / (entries.length : Rat) * 100| ≤ 1/2)
    ∧ (∀ r ∈ distRowsV1 entries,
      |r.2.2 - (r.2.1 : Rat) / (entries.length : Rat) * 100| ≤ 1/20) := by
  constructor
  · intro r hr
    rcases List.mem_map.mp hr with ⟨p, _, hp⟩
    rw [← hp]
    exact jsRound_close _
  · intro r hr
    rcases List.mem_map.mp hr with ⟨p, _, hp⟩
    rw [← hp]
    simp only [pctV1]
    have hb := jsRound_close ((p.2 : Rat) / (entries.length : Rat) * 100 * 10)
    rw [abs_le] at hb ⊢
    constructor <;> [linarith [hb.1] ; linarith [hb.2]]

/-- C3 witness: the amended rounding bounds instantiated on the concrete
non-empty collection `es3`. -/
theorem C3_percentage_rounding_witness :
    (∀ r ∈ distRowsV2 es3,
      |((r.2.2 : Int) : Rat) - (r.2.1 : Rat) / (es3.length : Rat) * 100| ≤ 1/2)
    ∧ (∀ r ∈ distRowsV1 es3,
      |r.2.2 - (r.2.1 : Rat) / (es3.length : Rat) * 100| ≤ 1/20) :=
  C3_percentage_rounding es3 (by simp [es3])

-- ===== Summary section (pdfExport.ts lines 44-52 / 198-206) =====

/-- A summary row: `highlight` is `none` when the source object carries no
highlight property (first variant), `some b` when it carries the boolean
`b` (second variant). -/
structure SummaryRow where
  label : String
  value : String
  highlight : Option Bool
deriving Repr, DecidableEq

/-- pdfExport.ts lines 44-52 (first variant): the seven `summaryStats`
rows; the object literals have no highlight property. -/
def summaryStatsV1 (F : Fmt) (entries : List TransportEntry) : List SummaryRow :=
  [ { label := "Total Entries", value := toString entries.length,
      highlight := none },
    { label := "Total Amount", value := "₹" ++ F.num (totalAmount entries),
      highlight := none },
    { label := "Paid Amount", value := "₹" ++ F.num (paidAmount entries),
      highlight := none },
    { label := "Unpaid Amount", value := "₹" ++ F.num (unpaidAmount entries),
      highlight := none },
    { label := "Average Amount",
      value := "₹" ++ F.num ((jsRound (averageAmount entries) : Int) : Rat),
      highlight := none },
    { label := "Unique Vehicles", value := toString (uniqueVehicles entries),
      highlight := none },
    { label := "Unique Weights", value := toString (uniqueWeights entries),
      highlight := none } ]

/-- pdfExport.ts lines 198-206 (second variant): the seven `summaryStats`
rows with an explicit highlight boolean, true only on Unpaid Amount. -/
def summaryStatsV2 (F : Fmt) (entries : List TransportEntry) : List SummaryRow :=
  [ { label := "Total Entries", value := toString entries.length,
      highlight := some false },
    { label := "Total Amount", value := "Rs. " ++ F.num (totalAmount entries),
      highlight := some false },
    { label := "Paid Amount", value := "Rs. " ++ F.num (paidAmount entries),
      highlight := some false },
    { label := "Unpaid Amount", value := "Rs. " ++ F.num (unpaidAmount entries),
      highlight := some true },
    { label := "Average Amount",
      value := "Rs. " ++ F.num ((jsRound (averageAmount entries) : Int) : Rat),
      highlight := some false },
    { label := "Unique Vehicles", value := toString (uniqueVehicles entries),
      highlight := some false },
    { label := "Unique Weights", value := toString (uniqueWeights entries),
      highlight := some false } ]

/-- C4 counterexample: on the empty collection the first variant's summary
has no row at all carrying highlighted = true (its rows carry no highlight
flag), so it is false that exactly one row is highlighted. -/
theorem C4_counterexample :
    ¬ ((summaryStatsV1 idFmt []).countP
        (fun r => r.highlight == some true) = 1) := by
  decide

/-- C4 amended: in both variants the summary lists exactly the seven
metrics Total Entries, Total Amount, Paid Amount, Unpaid Amount, Average
Amount, Unique Vehicles, Unique Weights in that order; in the second
variant exactly the Unpaid Amount row carries highlight = true and all
others false, while the first variant's rows carry no highlight flag. -/
theorem C4_summary_rows (F : Fmt) (entries : List TransportEntry) :
    (summaryStatsV1 F entries).map (fun r => r.label)
        = ["Total Entries", "Total Amount", "Paid Amount", "Unpaid Amount",
           "Average Amount", "Unique Vehicles", "Unique Weights"]
    ∧ (summaryStatsV2 F entries).map (fun r => r.label)
        = ["Total Entries", "Total Amount", "Paid Amount", "Unpaid Amount",
           "Average Amount", "Unique Vehicles", "Unique Weights"]
    ∧ (summaryStatsV2 F entries).map (fun r => r.highlight)
        = [some false, some false, some false, some true, some false,
           some false, some false]
    ∧ (summaryStatsV1 F entries).map (fun r => r.highlight)
        = [none, none, none, none, none, none, none] := by
  exact ⟨rfl, rfl, rfl, rfl⟩

-- ===== Detail rows (pdfExport.ts lines 97-108 / 278-289) =====

/-- One detail row of the first variant (lines 97-108): every falsy text
field falls back to a dash, including the vehicle number. -/
def rowV1 (F : Fmt) (e : TransportEntry) : List String :=
  [ F.dateFmt e.date,
    if e.vehicleNumber = "" then "-" else e.vehicleNumber,
    if e.weight = "" then "-" else e.weight,
    if e.transportName = "" then "-" else e.transportName,
    if e.place = "" then "-" else e.place,
    "₹" ++ F.num e.rentAmount,
    if advTruthy e then "₹" ++ F.num (advOr0 e) else "-",
    "₹" ++ F.num (e.rentAmount - advOr0 e),
    if e.balanceStatus = "" then "-" else e.balanceStatus,
    if dateTruthy e.balanceDate then F.dateFmt (e.balanceDate.getD "")
    else "-" ]

/-- One detail row of the second variant (lines 278-289): vehicle number
and status are emitted as-is, with no dash fallback. -/
def rowV2 (F : Fmt) (e : TransportEntry) : List String :=
  [ F.dateFmt e.date,
    e.vehicleNumber,
    if e.weight = "" then "-" else e.weight,
    if e.transportName = "" then "-" else e.transportName,
    if e.place = "" then "-" else e.place,
    "Rs. " ++ F.num e.rentAmount,
    if advTruthy e then "Rs. " ++ F.num (advOr0 e) else "-",
    "Rs. " ++ F.num (e.rentAmount - advOr0 e),
    e.balanceStatus,
    if dateTruthy e.balanceDate then F.dateFmt (e.balanceDate.getD "")
    else "-" ]

/-- pdfExport.ts line 97: `entriesData = entries.map(...)` (first variant). -/
def entriesData (F : Fmt) (entries : List TransportEntry) : List (List String) :=
  entries.map (rowV1 F)

/-- pdfExport.ts line 278: `tableData = entries.map(...)` (second variant). -/
def tableData (F : Fmt) (entries : List TransportEntry) : List (List String) :=
  entries.map (rowV2 F)

/-- C5: in both variants the detail section has exactly one row per input
entry and the row at each position is the formatted image of the input
entry at that position — nothing is filtered, dropped, duplicated or
reordered. -/
theorem C5_detail_one_row_per_entry (F : Fmt) (entries : List TransportEntry) :
    (entriesData F entries).length = entries.length
    ∧ (tableData F entries).length = entries.length
    ∧ (∀ i : Nat, (entriesData F entries)[i]? = (entries[i]?).map (rowV1 F))
    ∧ (∀ i : Nat, (tableData F entries)[i]? = (entries[i]?).map (rowV2 F)) := by
  refine ⟨List.length_map _ _, List.length_map _ _, ?_, ?_⟩
  · intro i
    exact List.getElem?_map (rowV1 F) entries i
  · intro i
    exact List.getElem?_map (rowV2 F) entries i

/-- An entry whose vehicleNumber is the empty string. -/
def emptyVehEntry : TransportEntry :=
  { id := "e1", date := "2024-03-01", vehicleNumber := "", weight := "1T",
    transportName := "t", place := "p", rentAmount := 10,
    advanceAmount := none, balanceStatus := "UNPAID", balanceDate := none }

/-- C8 counterexample: in the second variant the vehicle cell of an entry
with empty vehicleNumber is the empty string, not the placeholder dash. -/
theorem C8_counterexample :
    (rowV2 idFmt emptyVehEntry)[1]? = some ""
    ∧ ("" : String) ≠ "-" := by
  constructor
  · rfl
  · decide

/-- C8 amended: the first variant's vehicle cell is the vehicleNumber with
a dash substituted when it is empty; the second variant's vehicle cell is
always the vehicleNumber unchanged, with no placeholder. -/
theorem C8_vehicle_cell (F : Fmt) (e : TransportEntry) :
    (rowV1 F e)[1]?
        = some (if e.vehicleNumber = "" then "-" else e.vehicleNumber)
    ∧ (rowV2 F e)[1]? = some e.vehicleNumber := by
  exact ⟨rfl, rfl⟩

/-- C6: the empty collection produces all-zero aggregates, average 0 with
no division, empty distribution rows in both variants, and empty detail
sections in both variants — every operation is total, so no fault can be
raised. -/
theorem C6_empty_collection :
    totalAmount [] = 0 ∧ paidAmount [] = 0 ∧ unpaidAmount [] = 0
    ∧ averageAmount [] = 0 ∧ uniqueVehicles [] = 0 ∧ uniqueWeights [] = 0
    ∧ statusDistribution [] = [] ∧ distRowsV1 [] = [] ∧ distRowsV2 [] = []
    ∧ ∀ F : Fmt, entriesData F [] = [] ∧ tableData F [] = [] := by
  exact ⟨rfl, rfl, rfl, rfl, rfl, rfl, rfl, rfl, rfl, fun F => ⟨rfl, rfl⟩⟩

-- ===== Export handler (TransportEntries.tsx lines 103-118) =====

/-- The externally visible effects of `handleExport`: a destructive toast,
a success toast, or a call to the spreadsheet exporter with the rows it
receives. -/
inductive UIAction where
  | toastDestructive : UIAction
  | toastSuccess : UIAction
  | exportExcel : List TransportEntry → UIAction
deriving Repr, DecidableEq

/-- TransportEntries.tsx lines 103-118: on an empty filtered list, show
the destructive "No entries to export" toast and return; otherwise call
`exportToExcel(filteredEntries)` then show the success toast. -/
def handleExport (filtered : List TransportEntry) : List UIAction :=
  if filtered.length = 0 then [UIAction.toastDestructive]
  else [UIAction.exportExcel filtered, UIAction.toastSuccess]

/-- Whether a UI action is a call to the spreadsheet exporter. -/
def isExport : UIAction → Bool
  | UIAction.exportExcel _ => true
  | _ => false

/-- C10: the handler invokes the spreadsheet exporter iff the filtered
list is non-empty; on an empty list it emits exactly the destructive
failure toast and no export, and on a non-empty list it exports exactly
the filtered rows followed by the success toast. -/
theorem C10_export_iff_nonempty (l : List TransportEntry) :
    ((handleExport l).any isExport = true ↔ l ≠ [])
    ∧ (l = [] → handleExport l = [UIAction.toastDestructive])
    ∧ (l ≠ [] →
        handleExport l = [UIAction.exportExcel l, UIAction.toastSuccess]) := by
  cases l with
  | nil => refine ⟨?_, ?_, ?_⟩ <;> simp [handleExport, isExport]
  | cons x xs => refine ⟨?_, ?_, ?_⟩ <;> simp [handleExport, isExport]
